import Mathlib

/-!
Shallow embedding of `src/main.py` (`SystemInfoCollector`), a system
inventory tool that shells out to platform commands, collects a flat
key/value record, and writes CSV/JSON reports.

Modelling choices:
* External commands are an oracle `Runner : String → Option String`
  (`some out` = the command succeeded with stdout `out`; `none` = any
  failure: non-zero exit, missing binary, execution error).  This mirrors
  `subprocess.check_output` under the bare `except` of
  `get_command_output`.
* Python's `dict` with insertion order is an association list
  `Record := List (String × Value)`; all keys written in one run are
  distinct, so appending models `self.specs[k] = v`.
* Python floats produced by `round(x, 2)` are modelled as rationals
  (`round2`); their textual form (`str` / `json.dump`, both of which use
  the float repr) is `renderFloat`.
* The WMI structured interface is an oracle `Option WmiData`
  (`none` = `import wmi` raises `ImportError`, taking the fallback path).
* `collect_info` returns `Option Record`: `none` models the `TypeError`
  raised by `for i, gpu in enumerate(gpu_info)` when `get_gpu_info`
  returned Python `None` (unrecognized platform).
-/

/-- A value stored in the inventory record: Python string or float. -/
inductive Value where
  | str (s : String)
  | num (q : ℚ)
deriving DecidableEq

/-- The inventory record `self.specs`: an insertion-ordered mapping. -/
abbrev Record := List (String × Value)

/-- Oracle for external shell commands. -/
abbrev Runner := String → Option String

/-- Whitespace class used by Python's `str.strip`. -/
def pySpace (c : Char) : Bool := c.isWhitespace

/-- Python `str.strip()`: drop whitespace from both ends. -/
def pyStrip (s : String) : String :=
  ⟨(((s.data.dropWhile pySpace).reverse.dropWhile pySpace).reverse)⟩

/-- Decimal digit run to a natural number, `none` if not all digits. -/
def parseDigits (cs : List Char) : Option Nat :=
  if cs ≠ [] ∧ cs.all Char.isDigit then
    some (cs.foldl (fun n c => n * 10 + (c.toNat - 48)) 0)
  else none

/-- Python `int(s)`: optional sign and decimal digits, surrounding
whitespace ignored; `none` models the `ValueError` on anything else. -/
def pyInt (s : String) : Option Int :=
  match (pyStrip s).data with
  | '-' :: rest => (parseDigits rest).map (fun n => -(n : Int))
  | '+' :: rest => (parseDigits rest).map (fun n => (n : Int))
  | cs => (parseDigits cs).map (fun n => (n : Int))

/-- Python `round(q, 2)` modelled on rationals (rounding to hundredths). -/
def round2 (q : ℚ) : ℚ := (round (q * 100) : ℤ) / 100

/-- Textual form of a (2-decimal) float as Python's `str`/`repr` prints
it: minimal fractional digits, at least one (`16.0`, `16.5`, `16.05`). -/
def renderFloat (q : ℚ) : String :=
  let c : Int := ⌊q * 100⌋
  let sign := if c < 0 then "-" else ""
  let c := c.natAbs
  let ip := c / 100
  let frac := c % 100
  sign ++ toString ip ++ "." ++
    (if frac % 10 == 0 then toString (frac / 10)
     else if frac < 10 then "0" ++ toString frac
     else toString frac)

/-- Python `str(value)` over record values (also how `json.dump` renders
a number: both use the float repr). -/
def Value.render : Value → String
  | .str s => s
  | .num q => renderFloat q

/-- `get_command_output`: run through the shell, strip the output;
any failure is swallowed and becomes the sentinel. -/
def get_command_output (run : Runner) (command : String) : String :=
  match run command with
  | some output => pyStrip output
  | none => "Not available"

/- The exact command strings of the source (apostrophes and braces
escaped as \x27, \x7b, \x7d). -/
def linuxCpuCmd : String := "lscpu | grep \x27Model name\x27 | cut -f 2 -d \x27:\x27"
def linuxMemCmd : String := "grep MemTotal /proc/meminfo | awk \x27\x7bprint $2\x7d\x27"
def linuxStorageCmd : String := "df -h / | awk \x27NR==2 \x7bprint $2\x7d\x27"
def linuxSerialCmd : String := "sudo dmidecode -s system-serial-number"
def linuxModelCmd : String := "sudo dmidecode -s system-product-name"
def linuxManufacturerCmd : String := "sudo dmidecode -s system-manufacturer"
def macSerialCmd : String := "system_profiler SPHardwareDataType | grep \x27Serial Number\x27 | awk \x27\x7bprint $4\x7d\x27"
def macModelCmd : String := "system_profiler SPHardwareDataType | grep \x27Model Name\x27 | cut -f 2 -d \x27:\x27"
def macCpuCmd : String := "sysctl -n machdep.cpu.brand_string"
def macMemCmd : String := "sysctl hw.memsize | awk \x27\x7bprint $2\x7d\x27"
def macStorageCmd : String := "diskutil info disk0 | grep \x27Disk Size\x27 | awk \x27\x7bprint $3,$4\x7d\x27"
def winSerialCmd : String := "wmic bios get serialnumber"
def winModelCmd : String := "wmic computersystem get model"
def winCpuCmd : String := "wmic cpu get name"
def winMemCmd : String := "wmic computersystem get totalphysicalmemory"
def winStorageCmd : String := "wmic diskdrive get size,model"
def winGpuCmd : String := "wmic path win32_VideoController get name,adapterram,driverversion"
def lspciCmd : String := "lspci | grep -E \x27vga|3d|2d\x27"
def nvidiaSmiCmd : String := "nvidia-smi --query-gpu=gpu_name,memory.total,driver_version --format=csv,noheader"
def glxinfoCmd : String := "glxinfo | grep \x27OpenGL renderer\x27"
def macGpuCmd : String := "system_profiler SPDisplaysDataType"

/-- `get_linux_info`: appends the six Linux fields to `specs`. -/
def get_linux_info (run : Runner) (specs : Record) : Record :=
  let specs := specs ++ [("CPU", Value.str (get_command_output run linuxCpuCmd))]
  let mem_kb := get_command_output run linuxMemCmd
  let ram : Value :=
    match pyInt mem_kb with
    | some n => .num (round2 ((n : ℚ) / 1024 / 1024))
    | none => .str "Unknown"
  specs ++ [("RAM_GB", ram),
            ("Storage", Value.str (get_command_output run linuxStorageCmd)),
            ("Serial_Number", Value.str (get_command_output run linuxSerialCmd)),
            ("Model", Value.str (get_command_output run linuxModelCmd)),
            ("Manufacturer", Value.str (get_command_output run linuxManufacturerCmd))]

/-- `get_mac_info`: appends the five macOS fields to `specs`. -/
def get_mac_info (run : Runner) (specs : Record) : Record :=
  let specs := specs ++
    [("Serial_Number", Value.str (get_command_output run macSerialCmd)),
     ("Model", Value.str (get_command_output run macModelCmd)),
     ("CPU", Value.str (get_command_output run macCpuCmd))]
  let ram_bytes := get_command_output run macMemCmd
  let ram : Value :=
    match pyInt ram_bytes with
    | some n => .num (round2 ((n : ℚ) / 1024 / 1024 / 1024))
    | none => .str "Unknown"
  specs ++ [("RAM_GB", ram),
            ("Storage", Value.str (get_command_output run macStorageCmd))]

/-- A WMI video controller (`Win32_VideoController`).  `adapterRAM = 0`
models both a zero and an absent (`None`) `AdapterRAM`, which Python
treats identically (falsy). -/
structure WmiGpu where
  name : String
  adapterRAM : ℚ
  driverVersion : String
deriving DecidableEq

/-- The structured-management-interface oracle (`wmi` module). -/
structure WmiData where
  biosSerial : String
  manufacturer : String
  model : String
  cpuName : String
  totalPhysicalMemory : ℚ
  disks : List (String × ℚ)
  videoControllers : List WmiGpu
deriving DecidableEq

/-- `get_windows_info`: the structured WMI path when the interface is
available, otherwise the `wmic` text-command fallback. -/
def get_windows_info (run : Runner) (wmi : Option WmiData) (specs : Record) : Record :=
  match wmi with
  | some c =>
    specs ++
      [("Serial_Number", Value.str c.biosSerial),
       ("Manufacturer", Value.str c.manufacturer),
       ("Model", Value.str c.model),
       ("CPU", Value.str c.cpuName),
       ("RAM_GB", Value.num (round2 (c.totalPhysicalMemory / 1024 ^ 3))),
       ("Storage", Value.str (String.intercalate ", "
         (c.disks.map fun d =>
           d.1 ++ " (" ++ renderFloat (round2 (d.2 / 1024 ^ 3)) ++ " GB)")))]
  | none =>
    specs ++
      [("Serial_Number", Value.str (get_command_output run winSerialCmd)),
       ("Model", Value.str (get_command_output run winModelCmd)),
       ("CPU", Value.str (get_command_output run winCpuCmd)),
       ("RAM_GB", Value.str (get_command_output run winMemCmd)),
       ("Storage", Value.str (get_command_output run winStorageCmd))]

/-- A GPU descriptor as built by `get_gpu_info`: in the source every
element is a Python dict (three optional keys); `text` is the shape the
`else: self.specs[f"GPU_(i+1)"] = str(gpu)` merge branch expects, kept to
model that branch faithfully. -/
inductive GpuDesc where
  | dict (name memory driverVersion : Option String)
  | text (s : String)
deriving DecidableEq

def GpuDesc.isDict : GpuDesc → Bool
  | .dict _ _ _ => true
  | .text _ => false

/-- `get_gpu_info`.  Returns `none` exactly when the Python function
falls off the end and returns `None` (unrecognized platform). -/
def get_gpu_info (run : Runner) (wmi : Option WmiData) (system : String) :
    Option (List GpuDesc) :=
  if system = "Windows" then
    match wmi with
    | some c =>
      some (c.videoControllers.map fun gpu =>
        GpuDesc.dict (some gpu.name)
          (some (if gpu.adapterRAM ≠ 0 then
                   renderFloat (round2 (gpu.adapterRAM / 1024 ^ 3)) ++ " GB"
                 else "Unknown"))
          (some gpu.driverVersion))
    | none =>
      some [GpuDesc.dict (some (get_command_output run winGpuCmd)) none none]
  else if system = "Linux" then
    let gpu1 := get_command_output run lspciCmd
    let gpuText :=
      if gpu1 = "" then
        let gpu2 := get_command_output run nvidiaSmiCmd
        if gpu2 = "" then get_command_output run glxinfoCmd else gpu2
      else gpu1
    some [GpuDesc.dict (some gpuText) none none]
  else if system = "Darwin" then
    some [GpuDesc.dict (some (get_command_output run macGpuCmd)) none none]
  else
    none

/-- The entries one descriptor contributes, `n` being its 1-based
index: a dict becomes the three `GPU_n_*` keys (missing dict keys
defaulting to `"Unknown"` via `.get`), a non-dict one `GPU_n` key. -/
def gpuEntries (n : Nat) : GpuDesc → List (String × Value)
  | .dict name memory driver =>
    [("GPU_" ++ toString n ++ "_Name", Value.str (name.getD "Unknown")),
     ("GPU_" ++ toString n ++ "_Memory", Value.str (memory.getD "Unknown")),
     ("GPU_" ++ toString n ++ "_Driver", Value.str (driver.getD "Unknown"))]
  | .text s => [("GPU_" ++ toString n, Value.str s)]

/-- The `for i, gpu in enumerate(gpu_info)` merge loop, starting at
index `n` (the source starts at 1). -/
def mergeAux (n : Nat) : List GpuDesc → Record
  | [] => []
  | g :: rest => gpuEntries n g ++ mergeAux (n + 1) rest

def mergeGpus (specs : Record) (gpus : List GpuDesc) : Record :=
  specs ++ mergeAux 1 gpus

/-- The ambient facts `collect_info` reads besides the runner: the
`platform` module values and the scan timestamp. -/
structure Env where
  system : String
  osPlatform : String
  hostname : String
  osVersion : String
  architecture : String
  scanDate : String
  run : Runner
  wmi : Option WmiData

/-- The five common fields set first for every platform. -/
def commonSpecs (e : Env) : Record :=
  [("OS", Value.str e.osPlatform),
   ("Hostname", Value.str e.hostname),
   ("OS_Version", Value.str e.osVersion),
   ("Architecture", Value.str e.architecture),
   ("Scan_Date", Value.str e.scanDate)]

/-- `collect_info`.  `none` models the uncaught `TypeError` from
`enumerate(None)` when `get_gpu_info` returned `None`. -/
def collect_info (e : Env) : Option Record :=
  let specs := commonSpecs e
  let specs :=
    if e.system = "Linux" then get_linux_info e.run specs
    else if e.system = "Darwin" then get_mac_info e.run specs
    else if e.system = "Windows" then get_windows_info e.run e.wmi specs
    else specs
  match get_gpu_info e.run e.wmi e.system with
  | some gpus => some (mergeGpus specs gpus)
  | none => none

/-- The CSV writer's data rows: one `[key, str(value)]` row per field,
in record order (the header row `Specification,Value` precedes them). -/
def csvDataRows (specs : Record) : List (String × String) :=
  specs.map fun kv => (kv.1, kv.2.render)

def csvReport (specs : Record) : List (String × String) :=
  ("Specification", "Value") :: csvDataRows specs

/-- The JSON object written by `json.dump(self.specs, f, indent=4)`:
the same pairs, values kept native, insertion order preserved. -/
def jsonObject (specs : Record) : List (String × Value) := specs

/-- The report base name: prompt response stripped, empty defaulting to
`system_info`. -/
def filename_base (response : String) : String :=
  let b := pyStrip response
  if b = "" then "system_info" else b

/-- A full report file name `<base>_<timestamp><ext>`. -/
def reportFileName (response timestamp ext : String) : String :=
  filename_base response ++ "_" ++ timestamp ++ ext

/-! ## Helper lemmas and concrete environments -/

/-- A runner on which every external command fails. -/
def failRun : Runner := fun _ => none

/-- A runner on which every command succeeds with empty output. -/
def emptyRun : Runner := fun _ => some ""

def linuxEnvFail : Env :=
  ⟨"Linux", "Linux-6.1", "hostA", "6.1.0", "x86_64", "2026-01-01 00:00:00",
   failRun, none⟩

def darwinEnvFail : Env :=
  ⟨"Darwin", "macOS-14", "hostB", "23.0", "arm64", "2026-01-01 00:00:00",
   failRun, none⟩

def freebsdEnv : Env :=
  ⟨"FreeBSD", "FreeBSD-14", "hostC", "14.0", "amd64", "2026-01-01 00:00:00",
   failRun, none⟩

/-- A sample of structured WMI data. -/
def wmiSample : WmiData :=
  ⟨"SER123", "ACME", "Box1", "Xeon", 17179869184,
   [("Disk0", 1099511627776)], [⟨"GPU0", 0, "31.0.101"⟩]⟩

/-- A runner on which the PCI-bus probe fails while the NVIDIA probe
would succeed. -/
def lspciFailRun : Runner := fun command =>
  if command = lspciCmd then none
  else if command = nvidiaSmiCmd then some "GeForce RTX 3060, 12288 MiB, 550.54"
  else none

/-- The three keys a dict descriptor at 1-based index `n` contributes. -/
def gpuKeyTriple (n : Nat) : List String :=
  ["GPU_" ++ toString n ++ "_Name",
   "GPU_" ++ toString n ++ "_Memory",
   "GPU_" ++ toString n ++ "_Driver"]

/-- The keys the GPU merge contributes on a recognized platform: one
dict triple per descriptor (Linux, macOS and the Windows fallback yield
exactly one descriptor; the structured Windows path one per video
controller). -/
def gpuKeyList (system : String) (wmi : Option WmiData) : List String :=
  if system = "Windows" then
    match wmi with
    | some c => (List.range' 1 c.videoControllers.length).flatMap gpuKeyTriple
    | none => gpuKeyTriple 1
  else gpuKeyTriple 1

/-- Every field key whose collection `collect_info` attempts on a
recognized platform, in collection order. -/
def attemptedKeys (system : String) (wmi : Option WmiData) : List String :=
  ["OS", "Hostname", "OS_Version", "Architecture", "Scan_Date"] ++
  (if system = "Linux" then
    ["CPU", "RAM_GB", "Storage", "Serial_Number", "Model", "Manufacturer"]
   else if system = "Darwin" then
    ["Serial_Number", "Model", "CPU", "RAM_GB", "Storage"]
   else
    match wmi with
    | some _ => ["Serial_Number", "Manufacturer", "Model", "CPU", "RAM_GB", "Storage"]
    | none => ["Serial_Number", "Model", "CPU", "RAM_GB", "Storage"]) ++
  gpuKeyList system wmi

/-- A key found in the keys column can be looked up. -/
theorem lookup_isSome_of_mem_map_fst {l : List (String × Value)} {k : String}
    (h : k ∈ l.map Prod.fst) : (l.lookup k).isSome := by
  induction l with
  | nil => simp at h
  | cons p rest ih =>
    rcases p with ⟨k0, v0⟩
    rw [List.lookup_cons]
    by_cases hk : k = k0
    · subst hk; simp
    · have hbeq : (k == k0) = false := by simp [hk]
      simp only [hbeq]
      rcases (by simpa using h : k = k0 ∨ ∃ v, (k, v) ∈ rest) with h1 | ⟨v, hv⟩
      · exact absurd h1 hk
      · exact ih (List.mem_map.mpr ⟨(k, v), hv, rfl⟩)

/-- Keys generated by the merge loop over a list of dict descriptors:
the triples for contiguous 1-based indices `n, n+1, ...`. -/
theorem mergeAux_keys (gpus : List GpuDesc) (h : ∀ g ∈ gpus, g.isDict = true) :
    ∀ n, (mergeAux n gpus).map Prod.fst =
      (List.range' n gpus.length).flatMap gpuKeyTriple := by
  induction gpus with
  | nil => intro n; simp [mergeAux]
  | cons g rest ih =>
    intro n
    have hg : g.isDict = true := h g (List.mem_cons_self g rest)
    have hrest : ∀ g ∈ rest, g.isDict = true :=
      fun g' hg' => h g' (List.mem_cons_of_mem g hg')
    cases g with
    | text s => simp [GpuDesc.isDict] at hg
    | dict name mem drv =>
      simp only [mergeAux, List.map_append, ih hrest, List.length_cons,
        List.range'_succ, List.flatMap_cons]
      rfl

/-- `pyStrip` in terms of `List.rdropWhile`. -/
theorem pyStrip_eq (s : String) :
    pyStrip s = ⟨List.rdropWhile pySpace (s.data.dropWhile pySpace)⟩ := rfl

/-- The first character of a stripped string is not whitespace. -/
theorem pyStrip_head_not_space (s : String) (c : Char)
    (h : (pyStrip s).data.head? = some c) : pySpace c = false := by
  rw [pyStrip_eq] at h
  obtain ⟨t, ht⟩ :=
    List.dropWhile_suffix (l := (s.data.dropWhile pySpace).reverse) pySpace
  have hne : List.rdropWhile pySpace (s.data.dropWhile pySpace) ≠ [] := by
    intro hnil; rw [hnil] at h; simp at h
  have hmeq : s.data.dropWhile pySpace =
      List.rdropWhile pySpace (s.data.dropWhile pySpace) ++ t.reverse := by
    conv_lhs => rw [← List.reverse_reverse (s.data.dropWhile pySpace), ← ht]
    simp [List.rdropWhile, List.reverse_append]
  have hmne : s.data.dropWhile pySpace ≠ [] := by
    rw [hmeq]; simp [hne]
  have hmh : (s.data.dropWhile pySpace).head? = some c := by
    rw [hmeq, List.head?_append_of_ne_nil _ hne]
    exact h
  have hch : (s.data.dropWhile pySpace).head hmne = c := by
    rw [List.head?_eq_head hmne] at hmh
    exact Option.some.inj hmh
  rw [← hch]
  exact List.head_dropWhile_not pySpace s.data hmne

/-- The last character of a stripped string is not whitespace. -/
theorem pyStrip_last_not_space (s : String) (c : Char)
    (h : (pyStrip s).data.getLast? = some c) : pySpace c = false := by
  rw [pyStrip_eq] at h
  have hne : List.rdropWhile pySpace (s.data.dropWhile pySpace) ≠ [] := by
    intro hnil; rw [hnil] at h; simp at h
  have hlast := List.rdropWhile_last_not pySpace (s.data.dropWhile pySpace) hne
  rw [List.getLast?_eq_getLast _ hne] at h
  rw [Option.some.inj h] at hlast
  simpa using hlast

/-- Stripping is idempotent. -/
theorem pyStrip_idem (s : String) : pyStrip (pyStrip s) = pyStrip s := by
  have h1 : (pyStrip s).data.dropWhile pySpace = (pyStrip s).data := by
    cases hd : (pyStrip s).data with
    | nil => simp
    | cons c t =>
      have hc : pySpace c = false :=
        pyStrip_head_not_space s c (by rw [hd]; rfl)
      simp [List.dropWhile_cons, hc]
  have h2 : List.rdropWhile pySpace (pyStrip s).data = (pyStrip s).data := by
    rw [List.rdropWhile_eq_self_iff]
    intro hl
    have := pyStrip_last_not_space s ((pyStrip s).data.getLast hl)
      (List.getLast?_eq_getLast _ hl)
    simp [this]
  rw [pyStrip_eq (pyStrip s), h1, h2]

/-! ## Claim theorems -/

/-- C9: the command runner is total: on success it returns the captured
standard output with surrounding whitespace trimmed, on any failure it
returns exactly the sentinel "Not available"; it never raises (it is a
total function of the runner oracle). -/
theorem spec_c9_runner_total (run : Runner) (command : String) :
    (∃ out, run command = some out ∧
      get_command_output run command = pyStrip out) ∨
    (run command = none ∧
      get_command_output run command = "Not available") := by
  cases h : run command with
  | some out => exact Or.inl ⟨out, rfl, by simp [get_command_output, h]⟩
  | none => exact Or.inr ⟨rfl, by simp [get_command_output, h]⟩

/-- C8: round-trip between the two reports: the CSV data rows (after the
header row) are exactly the JSON object's pairs with each value replaced
by its string representation, in the record's insertion order; the CSV
report opens with the `Specification,Value` header. -/
theorem spec_c8_round_trip (specs : Record) :
    (csvReport specs).drop 1 =
      (jsonObject specs).map (fun kv => (kv.1, kv.2.render)) ∧
    (csvReport specs).head? = some ("Specification", "Value") := by
  exact ⟨rfl, rfl⟩

/-- C1 (code evidence): on an unrecognized platform identifier,
`get_gpu_info` returns Python `None` and `collect_info` crashes on
`enumerate(None)` with a `TypeError` (modelled as `none`) instead of
completing as a no-op with only the five common fields. -/
theorem spec_c1_unrecognized_crashes (e : Env)
    (h1 : e.system ≠ "Linux") (h2 : e.system ≠ "Darwin")
    (h3 : e.system ≠ "Windows") :
    collect_info e = none := by
  simp [collect_info, get_gpu_info, h1, h2, h3]

/-- C1 witness: a concrete unrecognized platform. -/
theorem spec_c1_witness : collect_info freebsdEnv = none :=
  spec_c1_unrecognized_crashes freebsdEnv (by decide) (by decide) (by decide)

/-- C3: with a runner failing every invocation, every platform-specific
textual field is exactly "Not available" and every numeric-derived field
is exactly "Unknown", on the Linux, macOS and Windows-fallback paths
(the GPU name fields, being textual, also hold "Not available"; the
unset dict keys of the single GPU descriptor default to "Unknown"). -/
theorem spec_c3_all_commands_fail (osp hn ov ar sd : String) :
    collect_info ⟨"Linux", osp, hn, ov, ar, sd, failRun, none⟩ =
      some [("OS", Value.str osp), ("Hostname", Value.str hn),
            ("OS_Version", Value.str ov), ("Architecture", Value.str ar),
            ("Scan_Date", Value.str sd),
            ("CPU", Value.str "Not available"),
            ("RAM_GB", Value.str "Unknown"),
            ("Storage", Value.str "Not available"),
            ("Serial_Number", Value.str "Not available"),
            ("Model", Value.str "Not available"),
            ("Manufacturer", Value.str "Not available"),
            ("GPU_1_Name", Value.str "Not available"),
            ("GPU_1_Memory", Value.str "Unknown"),
            ("GPU_1_Driver", Value.str "Unknown")] ∧
    collect_info ⟨"Darwin", osp, hn, ov, ar, sd, failRun, none⟩ =
      some [("OS", Value.str osp), ("Hostname", Value.str hn),
            ("OS_Version", Value.str ov), ("Architecture", Value.str ar),
            ("Scan_Date", Value.str sd),
            ("Serial_Number", Value.str "Not available"),
            ("Model", Value.str "Not available"),
            ("CPU", Value.str "Not available"),
            ("RAM_GB", Value.str "Unknown"),
            ("Storage", Value.str "Not available"),
            ("GPU_1_Name", Value.str "Not available"),
            ("GPU_1_Memory", Value.str "Unknown"),
            ("GPU_1_Driver", Value.str "Unknown")] ∧
    collect_info ⟨"Windows", osp, hn, ov, ar, sd, failRun, none⟩ =
      some [("OS", Value.str osp), ("Hostname", Value.str hn),
            ("OS_Version", Value.str ov), ("Architecture", Value.str ar),
            ("Scan_Date", Value.str sd),
            ("Serial_Number", Value.str "Not available"),
            ("Model", Value.str "Not available"),
            ("CPU", Value.str "Not available"),
            ("RAM_GB", Value.str "Not available"),
            ("Storage", Value.str "Not available"),
            ("GPU_1_Name", Value.str "Not available"),
            ("GPU_1_Memory", Value.str "Unknown"),
            ("GPU_1_Driver", Value.str "Unknown")] := by
  exact ⟨rfl, rfl, rfl⟩

/-- C2 counterexample: on macOS the GPU probe result is a Python dict
`\x7b"Name": text\x7d`, so the merge produces the three `GPU_1_*` keys
(with `GPU_1_Memory`/`GPU_1_Driver` defaulting to "Unknown") and no bare
`GPU_1` key — contradicting the claim that a plain text wrapper yields
exactly one `GPU_<n>` key. -/
theorem spec_c2_counterexample :
    (collect_info darwinEnvFail).map (fun r =>
      (r.lookup "GPU_1", r.lookup "GPU_1_Name",
       r.lookup "GPU_1_Memory", r.lookup "GPU_1_Driver")) =
    some (none, some (Value.str "Not available"),
          some (Value.str "Unknown"), some (Value.str "Unknown")) := by
  rfl

/-- C2 amended: every descriptor returned by any platform GPU probe is a
dict, so each one contributes exactly the three keys
`GPU_<n>_Name`, `GPU_<n>_Memory`, `GPU_<n>_Driver`, indexed
contiguously from 1 in enumeration order; the one-key `GPU_<n>` merge
branch is never taken for probe output. -/
theorem spec_c2_amended (e : Env) (gpus : List GpuDesc)
    (h : get_gpu_info e.run e.wmi e.system = some gpus) :
    (∀ g ∈ gpus, g.isDict = true) ∧
    (mergeAux 1 gpus).map Prod.fst =
      (List.range' 1 gpus.length).flatMap gpuKeyTriple := by
  have hdict : ∀ g ∈ gpus, g.isDict = true := by
    unfold get_gpu_info at h
    by_cases hw : e.system = "Windows"
    · simp only [hw, if_true] at h
      cases hwmi : e.wmi with
      | some c =>
        rw [hwmi] at h
        rcases Option.some.injEq _ _ ▸ h with rfl
        intro g hg
        simp only [List.mem_map] at hg
        obtain ⟨gpu, _, rfl⟩ := hg
        rfl
      | none =>
        rw [hwmi] at h
        rcases Option.some.injEq _ _ ▸ h with rfl
        intro g hg
        simp only [List.mem_singleton] at hg
        subst hg; rfl
    · simp only [hw, if_false] at h
      by_cases hl : e.system = "Linux"
      · simp only [hl, if_true] at h
        rcases Option.some.injEq _ _ ▸ h with rfl
        intro g hg
        simp only [List.mem_singleton] at hg
        subst hg; rfl
      · simp only [hl, if_false] at h
        by_cases hd : e.system = "Darwin"
        · simp only [hd, if_true] at h
          rcases Option.some.injEq _ _ ▸ h with rfl
          intro g hg
          simp only [List.mem_singleton] at hg
          subst hg; rfl
        · simp only [hd, if_false] at h
          exact absurd h (by simp)
  exact ⟨hdict, mergeAux_keys gpus hdict 1⟩

/-- C2 witness: the amended statement at the concrete macOS environment. -/
theorem spec_c2_witness :
    (∀ g ∈ [GpuDesc.dict (some "Not available") none none], g.isDict = true) ∧
    (mergeAux 1 [GpuDesc.dict (some "Not available") none none]).map Prod.fst =
      (List.range' 1 1).flatMap gpuKeyTriple :=
  spec_c2_amended darwinEnvFail [GpuDesc.dict (some "Not available") none none] rfl

/-- C4 counterexample: on Linux with the RAM command failing at the
command level, `RAM_GB` becomes "Unknown" (the failed command returns
the text "Not available", which then fails `int()` parsing), not
"Not available" as the claim requires for command-level failure — so
the two failure causes map to the same sentinel for numeric fields. -/
theorem spec_c4_counterexample :
    linuxEnvFail.run linuxMemCmd = none ∧
    (collect_info linuxEnvFail).map (fun r => r.lookup "RAM_GB") =
      some (some (Value.str "Unknown")) ∧
    Value.str "Unknown" ≠ Value.str "Not available" := by
  exact ⟨rfl, rfl, by decide⟩

/-- C4 amended: for the numeric `RAM_GB` field on Linux and on macOS,
both failure causes — the command failing outright, and the command
succeeding with non-numeric output — yield the same sentinel "Unknown",
because a failed command first degrades to the text "Not available",
which is itself non-numeric; the "Not available"/"Unknown" distinction
separates textual fields from numeric fields, not the two failure
causes. -/
theorem spec_c4_amended (e : Env) :
    (e.system = "Linux" →
      (e.run linuxMemCmd = none ∨
       ∃ out, e.run linuxMemCmd = some out ∧ pyInt (pyStrip out) = none) →
      (collect_info e).map (fun r => r.lookup "RAM_GB") =
        some (some (Value.str "Unknown"))) ∧
    (e.system = "Darwin" →
      (e.run macMemCmd = none ∨
       ∃ out, e.run macMemCmd = some out ∧ pyInt (pyStrip out) = none) →
      (collect_info e).map (fun r => r.lookup "RAM_GB") =
        some (some (Value.str "Unknown"))) := by
  have hgco : ∀ command : String,
      (e.run command = none ∨
       ∃ out, e.run command = some out ∧ pyInt (pyStrip out) = none) →
      pyInt (get_command_output e.run command) = none := by
    intro command h
    rcases h with h | ⟨out, hout, hparse⟩
    · rw [show get_command_output e.run command = "Not available" by
        simp [get_command_output, h]]
      rfl
    · rw [show get_command_output e.run command = pyStrip out by
        simp [get_command_output, hout]]
      exact hparse
  constructor
  · intro hsys h
    simp [collect_info, hsys, get_linux_info, hgco linuxMemCmd h,
      get_gpu_info, mergeGpus, commonSpecs, List.lookup]
  · intro hsys h
    simp [collect_info, hsys, get_mac_info, hgco macMemCmd h,
      get_gpu_info, mergeGpus, commonSpecs, List.lookup]

/-- C4 witness: the amended statement at concrete Linux and macOS
environments whose runners fail every command. -/
theorem spec_c4_witness :
    (collect_info linuxEnvFail).map (fun r => r.lookup "RAM_GB") =
      some (some (Value.str "Unknown")) ∧
    (collect_info darwinEnvFail).map (fun r => r.lookup "RAM_GB") =
      some (some (Value.str "Unknown")) :=
  ⟨(spec_c4_amended linuxEnvFail).1 rfl (Or.inl rfl),
   (spec_c4_amended darwinEnvFail).2 rfl (Or.inl rfl)⟩

/-- C5 counterexample: when the PCI-bus probe's command fails, the
runner yields the sentinel "Not available", which is non-empty, so the
chain stops there instead of attempting the NVIDIA probe — the
descriptor text is "Not available", not the NVIDIA probe's output, even
though that probe would have succeeded. -/
theorem spec_c5_counterexample :
    lspciFailRun lspciCmd = none ∧
    lspciFailRun nvidiaSmiCmd = some "GeForce RTX 3060, 12288 MiB, 550.54" ∧
    get_gpu_info lspciFailRun none "Linux" =
      some [GpuDesc.dict (some "Not available") none none] ∧
    "Not available" ≠ "GeForce RTX 3060, 12288 MiB, 550.54" := by
  exact ⟨rfl, by decide, by decide, by decide⟩

/-- C5 amended: the Linux GPU chain moves to the next probe only when
the previous probe returned the empty string (command succeeded with
empty trimmed output); a failed command yields the non-empty sentinel
"Not available", which stops the chain and becomes the descriptor's
text. -/
theorem spec_c5_amended (run : Runner) (wmi : Option WmiData) :
    (get_command_output run lspciCmd ≠ "" →
      get_gpu_info run wmi "Linux" =
        some [GpuDesc.dict (some (get_command_output run lspciCmd)) none none]) ∧
    (get_command_output run lspciCmd = "" →
      get_command_output run nvidiaSmiCmd ≠ "" →
      get_gpu_info run wmi "Linux" =
        some [GpuDesc.dict (some (get_command_output run nvidiaSmiCmd)) none none]) ∧
    (get_command_output run lspciCmd = "" →
      get_command_output run nvidiaSmiCmd = "" →
      get_gpu_info run wmi "Linux" =
        some [GpuDesc.dict (some (get_command_output run glxinfoCmd)) none none]) := by
  refine ⟨fun h1 => ?_, fun h1 h2 => ?_, fun h1 h2 => ?_⟩
  · simp [get_gpu_info, h1]
  · simp [get_gpu_info, h1, h2]
  · simp [get_gpu_info, h1, h2]

/-- C5 witness: the amended statement's last branch at the runner whose
every command succeeds with empty output. -/
theorem spec_c5_witness :
    get_gpu_info emptyRun none "Linux" =
      some [GpuDesc.dict (some (get_command_output emptyRun glxinfoCmd)) none none] :=
  (spec_c5_amended emptyRun none).2.2 rfl rfl

/-- C6 counterexample: the structured Windows path records a
`Manufacturer` field but the text-command fallback does not — the
fallback populates a strictly smaller field set. -/
theorem spec_c6_counterexample :
    (get_windows_info failRun (some wmiSample) []).lookup "Manufacturer" =
      some (Value.str "ACME") ∧
    (get_windows_info failRun none []).lookup "Manufacturer" = none := by
  exact ⟨rfl, rfl⟩

/-- C6 amended: the fallback populates `Serial_Number`, `Model`, `CPU`,
`RAM_GB` and `Storage` (raw text values), but omits `Manufacturer`,
which the structured path records; the other five fields coincide. -/
theorem spec_c6_amended (run : Runner) (c : WmiData) :
    (get_windows_info run none []).map Prod.fst =
      ["Serial_Number", "Model", "CPU", "RAM_GB", "Storage"] ∧
    (get_windows_info run (some c) []).map Prod.fst =
      ["Serial_Number", "Manufacturer", "Model", "CPU", "RAM_GB", "Storage"] := by
  exact ⟨rfl, rfl⟩

/-- Keys of the merge loop over descriptors that are all built as dicts
by a map (the structured Windows GPU path). -/
theorem mergeAux_keys_of_map {α : Type} (f₁ f₂ f₃ : α → Option String)
    (l : List α) (n : Nat) :
    (mergeAux n (l.map fun a => GpuDesc.dict (f₁ a) (f₂ a) (f₃ a))).map
        Prod.fst =
      (List.range' n l.length).flatMap gpuKeyTriple := by
  rw [mergeAux_keys _ (by
    intro g hg
    obtain ⟨a, _, rfl⟩ := List.mem_map.mp hg
    rfl), List.length_map]

/-- C7: on every recognized platform, collection completes and every
attempted field key is present in the record (holding a value or a
sentinel), regardless of which external queries fail. -/
theorem spec_c7_attempted_present (e : Env)
    (h : e.system = "Linux" ∨ e.system = "Darwin" ∨ e.system = "Windows") :
    ∀ k ∈ attemptedKeys e.system e.wmi,
      (collect_info e).map (fun r => (r.lookup k).isSome) = some true := by
  have key : (collect_info e).map (fun r => r.map Prod.fst) =
      some (attemptedKeys e.system e.wmi) := by
    rcases h with h | h | h
    · simp [collect_info, h, get_gpu_info, get_linux_info, commonSpecs,
        mergeGpus, mergeAux, gpuEntries, attemptedKeys, gpuKeyList,
        gpuKeyTriple]
    · simp [collect_info, h, get_gpu_info, get_mac_info, commonSpecs,
        mergeGpus, mergeAux, gpuEntries, attemptedKeys, gpuKeyList,
        gpuKeyTriple]
    · cases hw : e.wmi with
      | some c =>
        simp [collect_info, h, hw, get_gpu_info, get_windows_info,
          commonSpecs, mergeGpus, mergeAux_keys_of_map, attemptedKeys,
          gpuKeyList]
      | none =>
        simp [collect_info, h, hw, get_gpu_info, get_windows_info,
          commonSpecs, mergeGpus, mergeAux, gpuEntries, attemptedKeys,
          gpuKeyList, gpuKeyTriple]
  intro k hk
  cases hcoll : collect_info e with
  | none => rw [hcoll] at key; simp at key
  | some r =>
    rw [hcoll, Option.map_some'] at key
    rw [Option.map_some', Option.some.injEq]
    apply lookup_isSome_of_mem_map_fst
    rw [Option.some.inj key]
    exact hk

/-- C7 witness: the concrete Linux environment, on the `RAM_GB` key. -/
theorem spec_c7_witness :
    (collect_info linuxEnvFail).map
      (fun r => (r.lookup "RAM_GB").isSome) = some true :=
  spec_c7_attempted_present linuxEnvFail (Or.inl rfl) "RAM_GB" (by decide)

/-- C10: a prompt response made only of whitespace is stripped to the
empty string before the emptiness check, so it yields the default base
name "system_info"; consequently no output filename starts with a
whitespace character, and the two report filenames end in the extension
characters `v`/`n`, never whitespace. -/
theorem spec_c10_whitespace_default :
    (∀ response : String, (∀ c ∈ response.data, pySpace c = true) →
      filename_base response = "system_info") ∧
    (∀ response timestamp ext : String, ∀ c : Char,
      (reportFileName response timestamp ext).data.head? = some c →
      pySpace c = false) ∧
    (∀ response timestamp : String, ∀ c : Char,
      (reportFileName response timestamp ".csv").data.getLast? = some c →
      pySpace c = false) ∧
    (∀ response timestamp : String, ∀ c : Char,
      (reportFileName response timestamp ".json").data.getLast? = some c →
      pySpace c = false) := by
  have hstrip : ∀ response : String, (∀ c ∈ response.data, pySpace c = true) →
      pyStrip response = "" := by
    intro response hws
    rw [pyStrip_eq, List.dropWhile_eq_nil_iff.mpr hws, List.rdropWhile_nil]
  have hbase_ne : ∀ response : String, (filename_base response).data ≠ [] := by
    intro response
    unfold filename_base
    by_cases hb : pyStrip response = ""
    · simp [hb]
    · simp only [hb, if_false]
      intro hnil
      exact hb (String.ext hnil)
  have hbase_head : ∀ response : String, ∀ c : Char,
      (filename_base response).data.head? = some c → pySpace c = false := by
    intro response c hc
    unfold filename_base at hc
    by_cases hb : pyStrip response = ""
    · rw [hb] at hc
      simp only [if_pos rfl] at hc
      cases Option.some.inj hc
      decide
    · simp only [hb, if_false] at hc
      exact pyStrip_head_not_space response c hc
  refine ⟨?_, ?_, ?_, ?_⟩
  · intro response hws
    simp [filename_base, hstrip response hws]
  · intro response timestamp ext c hc
    unfold reportFileName at hc
    rw [String.data_append, String.data_append, String.data_append,
      List.head?_append_of_ne_nil _ (by
        simp [hbase_ne response]),
      List.head?_append_of_ne_nil _ (by
        simp [hbase_ne response]),
      List.head?_append_of_ne_nil _ (hbase_ne response)] at hc
    exact hbase_head response c hc
  · intro response timestamp c hc
    unfold reportFileName at hc
    rw [String.data_append,
      List.getLast?_append_of_ne_nil _ (by decide)] at hc
    cases Option.some.inj ((by decide :
      (".csv" : String).data.getLast? = some 'v') ▸ hc)
    decide
  · intro response timestamp c hc
    unfold reportFileName at hc
    rw [String.data_append,
      List.getLast?_append_of_ne_nil _ (by decide)] at hc
    cases Option.some.inj ((by decide :
      (".json" : String).data.getLast? = some 'n') ▸ hc)
    decide

/-- C10 witness: the default at a whitespace-only response, and the
boundary characters of concrete filenames. -/
theorem spec_c10_witness :
    filename_base "  " = "system_info" ∧
    pySpace 's' = false ∧ pySpace 'v' = false ∧ pySpace 'n' = false :=
  ⟨spec_c10_whitespace_default.1 "  " (by decide),
   spec_c10_whitespace_default.2.1 " " "20260101_000000" ".csv" 's' (by decide),
   spec_c10_whitespace_default.2.2.1 "box" "20260101_000000" 'v' (by decide),
   spec_c10_whitespace_default.2.2.2 "box" "20260101_000000" 'n' (by decide)⟩
